import Mathlib

/-!
Shallow embedding of the `runcmd` crate (`src/lib.rs`).

The crate is a builder around external process invocation: `RunCmd` holds a
command string and flags, `execute` spawns the process (piping its streams
or letting them pass through), waits, and records exit code / stdout /
stderr into a `RunCmdOutput`; `executep` delegates to `execute` and panics
on a nonzero exit code.

The OS process layer is modelled abstractly by a structure `OS`: `proc`
gives the behaviour of a spawned process (`none` = spawn failure), and
`decode` is text decoding of captured bytes (`String::from_utf8`, `none` =
invalid text).  Panics (from `unwrap` and from the panic macro) are
modelled as `Except.error`;
the `println!` diagnostics of `RunCmd::print` are modelled as a list of
printed snapshots of the diagnostic block.
-/

/-- Raw bytes of a child process stream. -/
abbrev Bytes := List Nat

/-- `RunCmdOutput` (src/lib.rs, lines 72–77). -/
structure RunCmdOutput where
  cmd : String
  stdout : String
  stderr : String
  exitcode : Int
deriving Repr, DecidableEq

/-- `RunCmd` (src/lib.rs, lines 79–84).  The Rust field `execute` is named
`executeFlag` here because Lean does not allow a structure field and a
method of the structure to share a name. -/
structure RunCmd where
  retval : RunCmdOutput
  verbose : Bool
  executeFlag : Bool
  shell : Bool
deriving Repr, DecidableEq

/-- Raw outcome of a spawned process: its reported exit status (`none` when
the process terminated abnormally, without a reportable status) and the
bytes it wrote to its two output streams. -/
structure ProcResult where
  status : Option Int
  stdout : Bytes
  stderr : Bytes
deriving Repr, DecidableEq

/-- The external OS process layer (spec section 6): `proc cmd sh` is the
behaviour of spawning `cmd` (through a shell interpreter when `sh` is
true), with `none` meaning the process could not be started; `decode` is
text decoding of captured bytes, with `none` meaning the bytes are not
valid text. -/
structure OS where
  proc : String → Bool → Option ProcResult
  decode : Bytes → Option String

/-- The platform contract of `execute_output` (spec section 6): with piped
redirection the captured bytes are exactly what the child wrote; with
inherited (passthrough) redirection nothing is captured and the captured
buffers come back empty.  Spawn failure is `none`. -/
def OS.execute_output (os : OS) (cmd : String) (sh piped : Bool) :
    Option ProcResult :=
  (os.proc cmd sh).map fun p =>
    if piped then p else { p with stdout := [], stderr := [] }

instance {ε α : Type} [DecidableEq ε] [DecidableEq α] : DecidableEq (Except ε α) :=
  fun a b =>
    match a, b with
    | .error e, .error f =>
        decidable_of_iff (e = f) ⟨fun h => by rw [h], fun h => by injection h⟩
    | .error _, .ok _ => isFalse fun h => by injection h
    | .ok _, .error _ => isFalse fun h => by injection h
    | .ok x, .ok y =>
        decidable_of_iff (x = y) ⟨fun h => by rw [h], fun h => by injection h⟩

/-- Observable outcome of one call to `RunCmd::execute`: whether the child
streams were piped, the diagnostic blocks printed, and either the panic
message or the updated runner together with the returned clone. -/
structure ExecResult where
  piped : Bool
  prints : List RunCmdOutput
  outcome : Except String (RunCmd × RunCmdOutput)
deriving Repr, DecidableEq

/-- Observable outcome of one call to `RunCmd::executep`: whether the inner
`execute` piped the child streams, the diagnostic blocks printed, and
either the panic message or the updated runner (no return value). -/
structure PanicExecResult where
  piped : Bool
  prints : List RunCmdOutput
  outcome : Except String RunCmd
deriving Repr, DecidableEq

/-- `RunCmd::new` (lines 88–100). -/
def RunCmd.new (cmd : String) : RunCmd :=
  { retval :=
      { cmd := cmd
        stdout := ""
        stderr := ""
        exitcode := 0 }
    executeFlag := false
    verbose := false
    shell := false }

/-- `RunCmd::verbose` (lines 105–108); named `with_verbose` because Lean
does not allow a method sharing the name of the `verbose` field. -/
def RunCmd.with_verbose (self : RunCmd) : RunCmd :=
  { self with verbose := true }

/-- `RunCmd::shell` (lines 112–115); named `with_shell` because Lean does
not allow a method sharing the name of the `shell` field. -/
def RunCmd.with_shell (self : RunCmd) : RunCmd :=
  { self with shell := true }

/-- `RunCmd::print` (lines 117–122): the diagnostic block it writes is a
snapshot of `retval` (command, stdout, stderr, exit code). -/
def RunCmd.printBlock (self : RunCmd) : RunCmdOutput :=
  self.retval

/-- `RunCmd::execute` (lines 139–169). -/
def RunCmd.execute (os : OS) (self : RunCmd) : ExecResult :=
  let piped := self.verbose || !self.executeFlag
  match os.execute_output self.retval.cmd self.shell piped with
  | none => { piped := piped, prints := [], outcome := .error "spawn failed" }
  | some output =>
    match output.status with
    | some exit_code =>
      match os.decode output.stdout with
      | none => { piped := piped, prints := [], outcome := .error "invalid utf8" }
      | some sout =>
        match os.decode output.stderr with
        | none => { piped := piped, prints := [], outcome := .error "invalid utf8" }
        | some serr =>
          let self := { self with retval :=
            { self.retval with exitcode := exit_code, stdout := sout, stderr := serr } }
          { piped := piped
            prints := if self.verbose then [self.printBlock] else []
            outcome := .ok (self, self.retval) }
    | none =>
      let self := { self with retval :=
        { self.retval with exitcode := -1, stderr := "Interrupted! in RunCmd" } }
      { piped := piped
        prints := if self.verbose then [self.printBlock] else []
        outcome := .ok (self, self.retval) }

/-- `RunCmd::executep` (lines 125–136). -/
def RunCmd.executep (os : OS) (self : RunCmd) : PanicExecResult :=
  let self := { self with executeFlag := true }
  let res := self.execute os
  match res.outcome with
  | .error e => { piped := res.piped, prints := res.prints, outcome := .error e }
  | .ok (self, retval) =>
    if retval.exitcode ≠ 0 then
      { piped := res.piped
        prints := res.prints ++ (if self.verbose then [self.printBlock] else [])
        outcome := .error "Exitcode != 0" }
    else
      { piped := res.piped, prints := res.prints, outcome := .ok self }

/-- Runner states reachable from `RunCmd.new cmd` through the public
operations of the crate. -/
inductive Reachable (cmd : String) : RunCmd → Prop where
  | new : Reachable cmd (RunCmd.new cmd)
  | with_verbose : ∀ r, Reachable cmd r → Reachable cmd r.with_verbose
  | with_shell : ∀ r, Reachable cmd r → Reachable cmd r.with_shell
  | execute : ∀ (os : OS) r r' out, Reachable cmd r →
      (RunCmd.execute os r).outcome = .ok (r', out) → Reachable cmd r'
  | executep : ∀ (os : OS) r r', Reachable cmd r →
      (RunCmd.executep os r).outcome = .ok r' → Reachable cmd r'

/-! ### Characterisation lemmas for `RunCmd.execute` and `RunCmd.executep` -/

lemma execute_eq_spawn_fail (os : OS) (r : RunCmd)
    (hp : os.proc r.retval.cmd r.shell = none) :
    RunCmd.execute os r =
      { piped := r.verbose || !r.executeFlag
        prints := []
        outcome := .error "spawn failed" } := by
  simp [RunCmd.execute, OS.execute_output, hp]

lemma execute_eq_normal (os : OS) (r : RunCmd) (p : ProcResult) (ec : Int)
    (so se : String)
    (hp : os.proc r.retval.cmd r.shell = some p)
    (hst : p.status = some ec)
    (hso : os.decode (if (r.verbose || !r.executeFlag) then p.stdout else []) = some so)
    (hse : os.decode (if (r.verbose || !r.executeFlag) then p.stderr else []) = some se) :
    RunCmd.execute os r =
      { piped := r.verbose || !r.executeFlag
        prints := if r.verbose then [⟨r.retval.cmd, so, se, ec⟩] else []
        outcome := .ok ({ r with retval := ⟨r.retval.cmd, so, se, ec⟩ },
                        ⟨r.retval.cmd, so, se, ec⟩) } := by
  cases hb : (r.verbose || !r.executeFlag)
  · rw [hb] at hso hse
    simp only [Bool.false_eq_true, if_false] at hso hse
    have hss : so = se := by rw [hso] at hse; exact Option.some.inj hse
    subst hss
    simp [RunCmd.execute, OS.execute_output, RunCmd.printBlock, hp, hb, hst, hso]
  · rw [hb] at hso hse
    simp only [if_true] at hso hse
    simp [RunCmd.execute, OS.execute_output, RunCmd.printBlock, hp, hb, hst, hso, hse]

lemma execute_eq_abnormal (os : OS) (r : RunCmd) (p : ProcResult)
    (hp : os.proc r.retval.cmd r.shell = some p)
    (hst : p.status = none) :
    RunCmd.execute os r =
      { piped := r.verbose || !r.executeFlag
        prints :=
          if r.verbose then
            [⟨r.retval.cmd, r.retval.stdout, "Interrupted! in RunCmd", -1⟩]
          else []
        outcome := .ok
          ({ r with retval := ⟨r.retval.cmd, r.retval.stdout, "Interrupted! in RunCmd", -1⟩ },
           ⟨r.retval.cmd, r.retval.stdout, "Interrupted! in RunCmd", -1⟩) } := by
  cases hb : (r.verbose || !r.executeFlag) <;>
    simp [RunCmd.execute, OS.execute_output, RunCmd.printBlock, hp, hb, hst]

lemma execute_eq_stdout_decode_fail (os : OS) (r : RunCmd) (p : ProcResult) (ec : Int)
    (hp : os.proc r.retval.cmd r.shell = some p)
    (hst : p.status = some ec)
    (hso : os.decode (if (r.verbose || !r.executeFlag) then p.stdout else []) = none) :
    RunCmd.execute os r =
      { piped := r.verbose || !r.executeFlag
        prints := []
        outcome := .error "invalid utf8" } := by
  cases hb : (r.verbose || !r.executeFlag) <;>
    rw [hb] at hso <;>
    simp only [if_true, Bool.false_eq_true, if_false] at hso <;>
    simp [RunCmd.execute, OS.execute_output, hp, hb, hst, hso]

lemma execute_eq_stderr_decode_fail (os : OS) (r : RunCmd) (p : ProcResult) (ec : Int)
    (so : String)
    (hp : os.proc r.retval.cmd r.shell = some p)
    (hst : p.status = some ec)
    (hso : os.decode (if (r.verbose || !r.executeFlag) then p.stdout else []) = some so)
    (hse : os.decode (if (r.verbose || !r.executeFlag) then p.stderr else []) = none) :
    RunCmd.execute os r =
      { piped := r.verbose || !r.executeFlag
        prints := []
        outcome := .error "invalid utf8" } := by
  cases hb : (r.verbose || !r.executeFlag)
  · rw [hb] at hso hse
    simp only [Bool.false_eq_true, if_false] at hso hse
    rw [hso] at hse
    exact absurd hse (by simp)
  · rw [hb] at hso hse
    simp only [if_true] at hso hse
    simp [RunCmd.execute, OS.execute_output, hp, hb, hst, hso, hse]

/-- Inversion: whenever `execute` returns normally, the updated runner
stores exactly the returned output (and nothing else changed), and the
returned output keeps the command string of the runner. -/
lemma execute_ok_inv (os : OS) (r r' : RunCmd) (out : RunCmdOutput)
    (h : (RunCmd.execute os r).outcome = .ok (r', out)) :
    r' = { r with retval := out } ∧ out.cmd = r.retval.cmd := by
  rcases hp : os.proc r.retval.cmd r.shell with _ | p
  · rw [execute_eq_spawn_fail os r hp] at h
    exact absurd h (by simp)
  · rcases hst : p.status with _ | ec
    · rw [execute_eq_abnormal os r p hp hst] at h
      simp only [Except.ok.injEq, Prod.mk.injEq] at h
      obtain ⟨h1, h2⟩ := h
      subst h1; subst h2
      exact ⟨rfl, rfl⟩
    · rcases hso : os.decode (if (r.verbose || !r.executeFlag) then p.stdout else [])
        with _ | so
      · rw [execute_eq_stdout_decode_fail os r p ec hp hst hso] at h
        exact absurd h (by simp)
      · rcases hse : os.decode (if (r.verbose || !r.executeFlag) then p.stderr else [])
          with _ | se
        · rw [execute_eq_stderr_decode_fail os r p ec so hp hst hso hse] at h
          exact absurd h (by simp)
        · rw [execute_eq_normal os r p ec so se hp hst hso hse] at h
          simp only [Except.ok.injEq, Prod.mk.injEq] at h
          obtain ⟨h1, h2⟩ := h
          subst h1; subst h2
          exact ⟨rfl, rfl⟩

lemma execute_piped (os : OS) (r : RunCmd) :
    (RunCmd.execute os r).piped = (r.verbose || !r.executeFlag) := by
  unfold RunCmd.execute
  rcases h : os.execute_output r.retval.cmd r.shell (r.verbose || !r.executeFlag)
    with _ | out
  · simp [h]
  · rcases hst : out.status with _ | ec
    · simp [h, hst]
    · rcases hso : os.decode out.stdout with _ | so
      · simp [h, hst, hso]
      · rcases hse : os.decode out.stderr with _ | se
        · simp [h, hst, hso, hse]
        · simp [h, hst, hso, hse]

lemma executep_piped (os : OS) (r : RunCmd) :
    (RunCmd.executep os r).piped = r.verbose := by
  unfold RunCmd.executep
  have h := execute_piped os { r with executeFlag := true }
  rcases ho : (RunCmd.execute os { r with executeFlag := true }).outcome with e | pr
  · simp [ho, h]
  · obtain ⟨r', out⟩ := pr
    by_cases hz : out.exitcode = 0 <;> simp [ho, h, hz]

lemma executep_eq_normal_zero (os : OS) (r : RunCmd) (p : ProcResult)
    (so se : String)
    (hp : os.proc r.retval.cmd r.shell = some p)
    (hst : p.status = some 0)
    (hso : os.decode (if r.verbose then p.stdout else []) = some so)
    (hse : os.decode (if r.verbose then p.stderr else []) = some se) :
    RunCmd.executep os r =
      { piped := r.verbose
        prints := if r.verbose then [⟨r.retval.cmd, so, se, 0⟩] else []
        outcome := .ok
          { r with executeFlag := true, retval := ⟨r.retval.cmd, so, se, 0⟩ } } := by
  have hx := execute_eq_normal os { r with executeFlag := true } p 0 so se
    (by simpa using hp) hst (by simpa using hso) (by simpa using hse)
  simp only [RunCmd.executep, hx]
  simp

lemma executep_eq_normal_nonzero (os : OS) (r : RunCmd) (p : ProcResult) (ec : Int)
    (so se : String)
    (hp : os.proc r.retval.cmd r.shell = some p)
    (hst : p.status = some ec)
    (hec : ec ≠ 0)
    (hso : os.decode (if r.verbose then p.stdout else []) = some so)
    (hse : os.decode (if r.verbose then p.stderr else []) = some se) :
    RunCmd.executep os r =
      { piped := r.verbose
        prints :=
          (if r.verbose then [⟨r.retval.cmd, so, se, ec⟩] else []) ++
            (if r.verbose then [⟨r.retval.cmd, so, se, ec⟩] else [])
        outcome := .error "Exitcode != 0" } := by
  have hx := execute_eq_normal os { r with executeFlag := true } p ec so se
    (by simpa using hp) hst (by simpa using hso) (by simpa using hse)
  simp only [RunCmd.executep, hx]
  simp [RunCmd.printBlock, hec]

lemma executep_eq_spawn_fail (os : OS) (r : RunCmd)
    (hp : os.proc r.retval.cmd r.shell = none) :
    RunCmd.executep os r =
      { piped := r.verbose, prints := [], outcome := .error "spawn failed" } := by
  have hx := execute_eq_spawn_fail os { r with executeFlag := true } (by simpa using hp)
  simp only [RunCmd.executep, hx]
  simp

/-! ### Concrete OS instances used by witnesses and counterexamples -/

/-- An OS in which every command starts, exits with status 0 and writes
nothing; decoding always succeeds. -/
def osOk : OS :=
  { proc := fun _ _ => some ⟨some 0, [], []⟩
    decode := fun _ => some "" }

/-- An OS in which every command starts, exits with status 7 and writes
nothing; decoding always succeeds. -/
def osFail7 : OS :=
  { proc := fun _ _ => some ⟨some 7, [], []⟩
    decode := fun _ => some "" }

/-- An OS in which no command can be started. -/
def osNoSpawn : OS :=
  { proc := fun _ _ => none
    decode := fun _ => some "" }

/-- An OS in which every process writes the bytes of `"foo"` to stdout and
then terminates abnormally (no reportable exit status). -/
def osAbn : OS :=
  { proc := fun _ _ => some ⟨none, [102, 111, 111], []⟩
    decode := fun b =>
      if b = [] then some ""
      else if b = [102, 111, 111] then some "foo" else none }

/-! ### Claim theorems -/

/-- C1: the stdout and stderr of the child are piped into in-memory buffers
exactly when the verbose flag is set OR the caller uses the
result-returning action `execute` (encoded as `executeFlag = false`, the
state of every runner that has not gone through `executep`); the
panic-on-failure action `executep` pipes exactly when verbose is set, so
passthrough occurs only in the non-verbose `executep` case. -/
theorem c1_capture_discipline (os : OS) (r : RunCmd)
    (hres : r.executeFlag = false) :
    (RunCmd.execute os r).piped = true ∧
    (RunCmd.executep os r).piped = r.verbose := by
  constructor
  · rw [execute_piped, hres]
    simp
  · exact executep_piped os r

theorem c1_capture_discipline_witness :
    (RunCmd.execute osOk (RunCmd.new "c")).piped = true ∧
    (RunCmd.executep osOk (RunCmd.new "c")).piped = (RunCmd.new "c").verbose :=
  c1_capture_discipline osOk (RunCmd.new "c") rfl

/-- C7: construction via `new cmd` stores the command text unchanged, sets
the `shell` and `verbose` configuration flags to false, and initialises the
result fields to empty strings for stdout/stderr and zero for the exit
code. -/
theorem c7_new_defaults (cmd : String) :
    (RunCmd.new cmd).retval.cmd = cmd ∧
    (RunCmd.new cmd).shell = false ∧
    (RunCmd.new cmd).verbose = false ∧
    (RunCmd.new cmd).retval.stdout = "" ∧
    (RunCmd.new cmd).retval.stderr = "" ∧
    (RunCmd.new cmd).retval.exitcode = 0 :=
  ⟨rfl, rfl, rfl, rfl, rfl, rfl⟩

/-- C8: the configuration operations are idempotent — applying
`with_verbose` (the Rust `verbose()`) or `with_shell` (the Rust `shell()`)
any number `n ≥ 1` of times leaves the runner in the same state as applying
it once. -/
theorem c8_config_idempotent (r : RunCmd) (n : ℕ) (hn : 1 ≤ n) :
    RunCmd.with_verbose^[n] r = r.with_verbose ∧
    RunCmd.with_shell^[n] r = r.with_shell := by
  obtain ⟨m, rfl⟩ : ∃ m, n = m + 1 := ⟨n - 1, by omega⟩
  constructor
  · rw [Function.iterate_succ_apply]
    exact Function.iterate_fixed rfl m
  · rw [Function.iterate_succ_apply]
    exact Function.iterate_fixed rfl m

theorem c8_config_idempotent_witness :
    RunCmd.with_verbose^[3] (RunCmd.new "c") = (RunCmd.new "c").with_verbose ∧
    RunCmd.with_shell^[3] (RunCmd.new "c") = (RunCmd.new "c").with_shell :=
  c8_config_idempotent (RunCmd.new "c") 3 (by decide)

/-- C3 counterexample: in the OS `osAbn` the spawned process writes the
bytes of `"foo"` to stdout (captured, since a fresh runner pipes) and then
terminates abnormally.  The claim says the returned `stdout` is left as
whatever was captured from that run — here the decodable text `"foo"` —
but `execute` returns `stdout = ""` (the previous value of the field): the
captured bytes of the run are discarded. -/
theorem c3_stdout_counterexample :
    osAbn.proc "c" false = some ⟨none, [102, 111, 111], []⟩ ∧
    osAbn.decode [102, 111, 111] = some "foo" ∧
    (RunCmd.execute osAbn (RunCmd.new "c")).piped = true ∧
    (RunCmd.execute osAbn (RunCmd.new "c")).outcome =
      .ok ({ RunCmd.new "c" with
               retval := ⟨"c", "", "Interrupted! in RunCmd", -1⟩ },
           ⟨"c", "", "Interrupted! in RunCmd", -1⟩) ∧
    ¬ ((⟨"c", "", "Interrupted! in RunCmd", -1⟩ : RunCmdOutput).stdout = "foo") := by
  refine ⟨rfl, rfl, rfl, ?_, by decide⟩
  rw [execute_eq_abnormal osAbn (RunCmd.new "c") ⟨none, [102, 111, 111], []⟩ rfl rfl]
  rfl

/-- C3 (amended): when the process terminates abnormally (no reportable
exit status), `execute` sets `exitcode` to the sentinel `-1`, sets `stderr`
to the fixed diagnostic string `"Interrupted! in RunCmd"`, and leaves
`stdout` unchanged at the previous value of the field (empty on a fresh runner)
— the bytes captured from that run are discarded; it does not abort the
calling flow (the outcome is a normal return, not a panic). -/
theorem c3_abnormal_termination (os : OS) (r : RunCmd) (p : ProcResult)
    (hp : os.proc r.retval.cmd r.shell = some p)
    (hst : p.status = none) :
    ∃ r', (RunCmd.execute os r).outcome =
      .ok (r', ⟨r.retval.cmd, r.retval.stdout, "Interrupted! in RunCmd", -1⟩) :=
  ⟨_, by rw [execute_eq_abnormal os r p hp hst]⟩

theorem c3_abnormal_termination_witness :
    ∃ r', (RunCmd.execute osAbn (RunCmd.new "c")).outcome =
      .ok (r', ⟨"c", "", "Interrupted! in RunCmd", -1⟩) :=
  c3_abnormal_termination osAbn (RunCmd.new "c") ⟨none, [102, 111, 111], []⟩ rfl rfl

lemma executep_ok_inv (os : OS) (r r' : RunCmd)
    (h : (RunCmd.executep os r).outcome = .ok r') :
    ∃ out, (RunCmd.execute os { r with executeFlag := true }).outcome = .ok (r', out)
      ∧ out.exitcode = 0 := by
  simp only [RunCmd.executep] at h
  rcases ho : (RunCmd.execute os { r with executeFlag := true }).outcome with e | pr
  · rw [ho] at h
    simp at h
  · obtain ⟨q, out⟩ := pr
    rw [ho] at h
    by_cases hz : out.exitcode = 0
    · simp [hz] at h
      subst h
      exact ⟨out, rfl, hz⟩
    · simp [hz] at h

/-- C4: for every runner state reachable from construction through any
sequence of configuration calls and executions, the stored command
string equals the exact string passed at construction, and every output
returned by `execute` carries that same string — no operation modifies
it. -/
theorem c4_command_verbatim (cmd : String) (r : RunCmd)
    (h : Reachable cmd r) :
    r.retval.cmd = cmd ∧
    ∀ (os : OS) (r' : RunCmd) (out : RunCmdOutput),
      (RunCmd.execute os r).outcome = .ok (r', out) → out.cmd = cmd := by
  have hinv : r.retval.cmd = cmd := by
    induction h with
    | new => rfl
    | with_verbose q hq ih => exact ih
    | with_shell q hq ih => exact ih
    | execute os q q' out hq hok ih =>
        obtain ⟨h1, h2⟩ := execute_ok_inv os q q' out hok
        rw [h1]
        simpa [h2] using ih
    | executep os q q' hq hok ih =>
        obtain ⟨out, hex, _⟩ := executep_ok_inv os q q' hok
        obtain ⟨h1, h2⟩ := execute_ok_inv os _ q' out hex
        rw [h1]
        simpa [h2] using ih
  refine ⟨hinv, ?_⟩
  intro os r' out hok
  obtain ⟨_, h2⟩ := execute_ok_inv os r r' out hok
  rw [h2, hinv]

theorem c4_command_verbatim_witness :
    (RunCmd.new "echo hi").retval.cmd = "echo hi" :=
  (c4_command_verbatim "echo hi" (RunCmd.new "echo hi") Reachable.new).1

/-- C5: spawn failure and text-decoding failure of either captured stream
are each propagated as a fatal, unrecoverable error (a panic, modelled as
`Except.error`) that aborts the calling flow; no `RunCmdOutput` is produced
in either case, so neither failure is ever represented inside the returned
result. -/
theorem c5_fatal_errors (os : OS) (r : RunCmd)
    (h : os.proc r.retval.cmd r.shell = none ∨
      (∃ p ec, os.proc r.retval.cmd r.shell = some p ∧ p.status = some ec ∧
        (os.decode (if (r.verbose || !r.executeFlag) then p.stdout else []) = none ∨
         os.decode (if (r.verbose || !r.executeFlag) then p.stderr else []) = none))) :
    ∃ e, (RunCmd.execute os r).outcome = Except.error e := by
  rcases h with hp | ⟨p, ec, hp, hst, hd⟩
  · exact ⟨_, by rw [execute_eq_spawn_fail os r hp]⟩
  · rcases hso : os.decode (if (r.verbose || !r.executeFlag) then p.stdout else [])
      with _ | so
    · exact ⟨_, by rw [execute_eq_stdout_decode_fail os r p ec hp hst hso]⟩
    · rcases hd with hd | hd
      · rw [hso] at hd
        exact absurd hd (by simp)
      · exact ⟨_, by rw [execute_eq_stderr_decode_fail os r p ec so hp hst hso hd]⟩

theorem c5_fatal_errors_witness :
    ∃ e, (RunCmd.execute osNoSpawn (RunCmd.new "c")).outcome = Except.error e :=
  c5_fatal_errors osNoSpawn (RunCmd.new "c") (Or.inl rfl)

/-- C6: every call to `execute` stores the freshly computed output as
`last_result` (the `retval` of the runner) and returns exactly that stored
value; a second call on the returned runner spawns the process again under
the OS in effect at that call — its result reports the exit
status `m`, whatever the first call stored, and overwrites `retval` with
the second output.  No caching or memoisation occurs. -/
theorem c6_store_and_respawn (os₁ os₂ : OS) (r r₁ : RunCmd)
    (out₁ : RunCmdOutput)
    (h₁ : (RunCmd.execute os₁ r).outcome = .ok (r₁, out₁))
    (p : ProcResult) (m : Int)
    (hp : os₂.proc r₁.retval.cmd r₁.shell = some p)
    (hst : p.status = some m)
    (hdec : ∀ b : Bytes, (os₂.decode b).isSome = true) :
    r₁.retval = out₁ ∧
    ∃ r₂ out₂, (RunCmd.execute os₂ r₁).outcome = .ok (r₂, out₂) ∧
      r₂.retval = out₂ ∧ out₂.exitcode = m := by
  have hinv := execute_ok_inv os₁ r r₁ out₁ h₁
  refine ⟨by rw [hinv.1], ?_⟩
  obtain ⟨so, hso⟩ := Option.isSome_iff_exists.mp
    (hdec (if (r₁.verbose || !r₁.executeFlag) then p.stdout else []))
  obtain ⟨se, hse⟩ := Option.isSome_iff_exists.mp
    (hdec (if (r₁.verbose || !r₁.executeFlag) then p.stderr else []))
  refine ⟨{ r₁ with retval := ⟨r₁.retval.cmd, so, se, m⟩ },
          ⟨r₁.retval.cmd, so, se, m⟩, ?_, rfl, rfl⟩
  rw [execute_eq_normal os₂ r₁ p m so se hp hst hso hse]

theorem c6_store_and_respawn_witness :
    ({ RunCmd.new "c" with
         retval := ⟨"c", "", "", 0⟩ } : RunCmd).retval = ⟨"c", "", "", 0⟩ ∧
    ∃ r₂ out₂,
      (RunCmd.execute osFail7
        ({ RunCmd.new "c" with retval := ⟨"c", "", "", 0⟩ } : RunCmd)).outcome =
          .ok (r₂, out₂) ∧ r₂.retval = out₂ ∧ out₂.exitcode = 7 :=
  c6_store_and_respawn osOk osFail7 (RunCmd.new "c")
    { RunCmd.new "c" with retval := ⟨"c", "", "", 0⟩ } ⟨"c", "", "", 0⟩
    (by decide) ⟨some 7, [], []⟩ 7 rfl rfl (fun _ => rfl)

/-- C2: when the spawned process exits normally with status `N`
(0 ≤ N ≤ 255) and the captured bytes decode, `execute` returns an output
with `exitcode = N`; `executep` returns normally (with no value) when
`N = 0` and panics with the fatal error `"Exitcode != 0"` when `N ≠ 0`. -/
theorem c2_exit_status (os : OS) (r : RunCmd) (p : ProcResult) (N : Int)
    (hp : os.proc r.retval.cmd r.shell = some p)
    (hst : p.status = some N)
    (hrange : 0 ≤ N ∧ N ≤ 255)
    (hso : (os.decode p.stdout).isSome = true)
    (hse : (os.decode p.stderr).isSome = true)
    (hde : os.decode [] = some "") :
    (∃ r' out, (RunCmd.execute os r).outcome = .ok (r', out) ∧ out.exitcode = N) ∧
    (N = 0 → ∃ r', (RunCmd.executep os r).outcome = .ok r') ∧
    (N ≠ 0 → (RunCmd.executep os r).outcome = .error "Exitcode != 0") := by
  obtain ⟨so, hso'⟩ := Option.isSome_iff_exists.mp hso
  obtain ⟨se, hse'⟩ := Option.isSome_iff_exists.mp hse
  have hsoc : ∀ b : Bool, ∃ s, os.decode (if b then p.stdout else []) = some s := by
    intro b
    cases b
    · exact ⟨"", by simpa using hde⟩
    · exact ⟨so, by simpa using hso'⟩
  have hsec : ∀ b : Bool, ∃ s, os.decode (if b then p.stderr else []) = some s := by
    intro b
    cases b
    · exact ⟨"", by simpa using hde⟩
    · exact ⟨se, by simpa using hse'⟩
  refine ⟨?_, ?_, ?_⟩
  · obtain ⟨so₁, h1⟩ := hsoc (r.verbose || !r.executeFlag)
    obtain ⟨se₁, h2⟩ := hsec (r.verbose || !r.executeFlag)
    refine ⟨{ r with retval := ⟨r.retval.cmd, so₁, se₁, N⟩ },
            ⟨r.retval.cmd, so₁, se₁, N⟩, ?_, rfl⟩
    rw [execute_eq_normal os r p N so₁ se₁ hp hst h1 h2]
  · rintro rfl
    obtain ⟨so₁, h1⟩ := hsoc r.verbose
    obtain ⟨se₁, h2⟩ := hsec r.verbose
    exact ⟨_, by rw [executep_eq_normal_zero os r p so₁ se₁ hp hst h1 h2]⟩
  · intro hN
    obtain ⟨so₁, h1⟩ := hsoc r.verbose
    obtain ⟨se₁, h2⟩ := hsec r.verbose
    rw [executep_eq_normal_nonzero os r p N so₁ se₁ hp hst hN h1 h2]

theorem c2_exit_status_witness :
    (∃ r' out, (RunCmd.execute osOk (RunCmd.new "c")).outcome = .ok (r', out) ∧
      out.exitcode = 0) ∧
    ((0 : Int) = 0 → ∃ r', (RunCmd.executep osOk (RunCmd.new "c")).outcome = .ok r') ∧
    ((0 : Int) ≠ 0 →
      (RunCmd.executep osOk (RunCmd.new "c")).outcome = .error "Exitcode != 0") :=
  c2_exit_status osOk (RunCmd.new "c") ⟨some 0, [], []⟩ 0 rfl rfl
    (by decide) rfl rfl rfl

/-- C9: once `executep` has returned on an instance, the internal
`executeFlag` is true in the resulting state and is preserved by every
further operation; a subsequent direct call to `execute` on that state with
verbose unset runs in passthrough mode (`piped = false`), and on a normal
exit the stdout/stderr fields of the returned output are the empty string
— not the output the child produced in that run — whatever bytes the child wrote. -/
theorem c9_executep_flag_sticky (os os₂ : OS) (r r₁ : RunCmd)
    (h₁ : (RunCmd.executep os r).outcome = .ok r₁) :
    r₁.executeFlag = true ∧
    (∀ q : RunCmd, q.executeFlag = true →
      q.with_verbose.executeFlag = true ∧ q.with_shell.executeFlag = true ∧
      ∀ (os' : OS) (q' : RunCmd) (out : RunCmdOutput),
        (RunCmd.execute os' q).outcome = .ok (q', out) → q'.executeFlag = true) ∧
    (r₁.verbose = false →
      (RunCmd.execute os₂ r₁).piped = false ∧
      ∀ (p : ProcResult) (N : Int), os₂.proc r₁.retval.cmd r₁.shell = some p →
        p.status = some N → os₂.decode [] = some "" →
        ∃ q', (RunCmd.execute os₂ r₁).outcome =
          .ok (q', ⟨r₁.retval.cmd, "", "", N⟩)) := by
  have hflag : r₁.executeFlag = true := by
    obtain ⟨out, hex, _⟩ := executep_ok_inv os r r₁ h₁
    obtain ⟨h1, _⟩ := execute_ok_inv os _ r₁ out hex
    rw [h1]
  refine ⟨hflag, ?_, ?_⟩
  · intro q hq
    refine ⟨hq, hq, ?_⟩
    intro os' q' out hok
    obtain ⟨h1, _⟩ := execute_ok_inv os' q q' out hok
    rw [h1]
    exact hq
  · intro hv
    have hpip : (r₁.verbose || !r₁.executeFlag) = false := by
      rw [hv, hflag]
      rfl
    refine ⟨by rw [execute_piped, hpip], ?_⟩
    intro p N hp hst hde
    have hso : os₂.decode (if (r₁.verbose || !r₁.executeFlag) then p.stdout else []) =
        some "" := by rw [hpip]; simpa using hde
    have hse : os₂.decode (if (r₁.verbose || !r₁.executeFlag) then p.stderr else []) =
        some "" := by rw [hpip]; simpa using hde
    exact ⟨_, by rw [execute_eq_normal os₂ r₁ p N "" "" hp hst hso hse]⟩

theorem c9_executep_flag_sticky_witness :
    ({ RunCmd.new "c" with
         executeFlag := true
         retval := ⟨"c", "", "", 0⟩ } : RunCmd).executeFlag = true :=
  (c9_executep_flag_sticky osOk osFail7 (RunCmd.new "c")
    { RunCmd.new "c" with executeFlag := true, retval := ⟨"c", "", "", 0⟩ }
    (by decide)).1

/-- C10: when verbose is set and `executep` observes a nonzero exit code
`N`, the formatted diagnostic block (command, stdout, stderr, exit code) is
printed twice — once by `execute` after termination and once more by
`executep` immediately before it panics with `"Exitcode != 0"`. -/
theorem c10_verbose_double_print (os : OS) (r : RunCmd) (p : ProcResult)
    (N : Int) (so se : String)
    (hv : r.verbose = true)
    (hp : os.proc r.retval.cmd r.shell = some p)
    (hst : p.status = some N)
    (hN : N ≠ 0)
    (hso : os.decode p.stdout = some so)
    (hse : os.decode p.stderr = some se) :
    (RunCmd.executep os r).prints =
      [⟨r.retval.cmd, so, se, N⟩, ⟨r.retval.cmd, so, se, N⟩] ∧
    (RunCmd.executep os r).outcome = .error "Exitcode != 0" := by
  have hx := executep_eq_normal_nonzero os r p N so se hp hst hN
    (by rw [hv]; simpa using hso) (by rw [hv]; simpa using hse)
  rw [hx]
  simp [hv]

theorem c10_verbose_double_print_witness :
    (RunCmd.executep osFail7 ((RunCmd.new "c").with_verbose)).prints =
      [⟨"c", "", "", 7⟩, ⟨"c", "", "", 7⟩] ∧
    (RunCmd.executep osFail7 ((RunCmd.new "c").with_verbose)).outcome =
      .error "Exitcode != 0" :=
  c10_verbose_double_print osFail7 ((RunCmd.new "c").with_verbose)
    ⟨some 7, [], []⟩ 7 "" "" rfl rfl rfl (by decide) rfl rfl
